import Mathlib

/-!
Verification development for the ets-noc health-probing and
status-aggregation core (Go backend, `internal/monitor` and
`internal/storage`), shallowly embedded in Lean 4.

Modelling conventions:
* Go `int64` identifiers become `Int`; counters become `Nat`.
* Wall-clock instants are `Int` values. For the Redis layer times are in
  seconds (the code stores `time.Now().Unix()` and uses second-granularity
  TTL/cooldown comparisons); `time.AddDate(0, 0, -d)` on a UTC clock is
  modelled as subtracting `d * 86400` seconds.
* Redis is modelled as explicit state: the per-device status key space is a
  function `Int → Option (DeviceStatus × Int)` carrying the absolute expiry
  deadline set by the 10-minute TTL, and the `all_device_status` hash is a
  function `Int → Option DeviceStatus` (no per-field TTL exists in Redis
  hashes, mirroring the code, which sets none).
* A fallible Redis read used by the aggregator is a function
  `Int → StatusRead`, distinguishing a found value, a missing key
  (`redis.Nil`, i.e. never probed or expired) and a read error.
* `DeviceStatus.ResponseTime` is `float64` in Go but the pinger only ever
  stores `float64(AvgRtt.Milliseconds())`, an integral number of
  milliseconds, so it is modelled as `Int`.
-/

namespace EtsNoc

/-- Go struct `models.Device` (the fields the monitoring core reads). -/
structure Device where
  id : Int
  propertyID : Int
  hostname : String
  isCritical : Bool
  retries : Int
  timeout : Int
  active : Bool
  deriving DecidableEq

/-- Go struct `models.DeviceStatus`: current status of a device. -/
structure DeviceStatus where
  deviceID : Int
  status : String
  responseTime : Int
  lastCheck : Int
  message : String
  deriving DecidableEq

/-- Go struct `models.PropertyStatus`: the computed rollup status of a property. -/
structure PropertyStatus where
  propertyID : Int
  status : String
  onlineCount : Nat
  offlineCount : Nat
  totalCount : Nat
  criticalOffline : Bool
  lastCheck : Int
  deriving DecidableEq

/-- Outcome of `redis.GetDeviceStatus` for one device id: a stored status,
a missing key (`redis.Nil`: never probed, or the 10-minute TTL expired), or
a transport/decode error. -/
inductive StatusRead where
  | found (s : DeviceStatus)
  | notFound
  | readErr (msg : String)
  deriving DecidableEq

namespace StatusRead

/-- The `err == nil && status != nil` filter in `ComputePropertyStatus`:
only a successful read contributes a map entry. -/
def toOption : StatusRead → Option DeviceStatus
  | found s => some s
  | notFound => none
  | readErr _ => none

/-- Collapse a read error to a missing entry (what the aggregation loop
effectively does with erroring reads). -/
def errToNotFound : StatusRead → StatusRead
  | readErr _ => notFound
  | r => r

end StatusRead

/-- Point update of the Go map `deviceStatuses[id] = status`. -/
def updMap (m : Int → Option DeviceStatus) (id : Int) (s : DeviceStatus) :
    Int → Option DeviceStatus :=
  fun x => if x = id then some s else m x

/-- One iteration of the first loop of `ComputePropertyStatus`: read the
device's current status and record it in the map only when the read
succeeded with a non-nil status. -/
def buildStep (read : Int → StatusRead) (m : Int → Option DeviceStatus)
    (d : Device) : Int → Option DeviceStatus :=
  match read d.id with
  | .found s => updMap m d.id s
  | _ => m

/-- The `deviceStatuses` map built by the first loop of
`ComputePropertyStatus` (lines 34–40). -/
def buildStatusMap (devices : List Device) (read : Int → StatusRead) :
    Int → Option DeviceStatus :=
  devices.foldl (buildStep read) (fun _ => none)

/-- The condition `ok && status.Status == "online"` of the counting loop. -/
def isOnlineIn (m : Int → Option DeviceStatus) (d : Device) : Bool :=
  match m d.id with
  | some s => s.status == "online"
  | none => false

/-- One iteration of the counting loop of `ComputePropertyStatus`
(lines 45–54): accumulator is `(online, offline, criticalOffline)`. -/
def countStep (m : Int → Option DeviceStatus) (acc : Nat × Nat × Bool)
    (d : Device) : Nat × Nat × Bool :=
  if isOnlineIn m d then
    (acc.1 + 1, acc.2.1, acc.2.2)
  else
    (acc.1, acc.2.1 + 1, acc.2.2 || d.isCritical)

/-- Method `StatusComputer.ComputePropertyStatus`. The Redis dependency is the
read function `read`; `now` stands for `time.Now()`. The Go function
returns a `(*models.PropertyStatus, error)` pair whose error is `nil` on
every path, modelled as `PropertyStatus × Option String` with the second
component the returned error. -/
def computePropertyStatus (propertyID : Int) (devices : List Device)
    (read : Int → StatusRead) (now : Int) : PropertyStatus × Option String :=
  if devices.length = 0 then
    ({ propertyID := propertyID
       status := "green"
       onlineCount := 0
       offlineCount := 0
       totalCount := 0
       criticalOffline := false
       lastCheck := now }, none)
  else
    let m := buildStatusMap devices read
    let counts := devices.foldl (countStep m) (0, 0, false)
    let online := counts.1
    let offline := counts.2.1
    let criticalOffline := counts.2.2
    let st :=
      if offline = devices.length || criticalOffline then "red"
      else if offline > 0 then "yellow"
      else "green"
    ({ propertyID := propertyID
       status := st
       onlineCount := online
       offlineCount := offline
       totalCount := devices.length
       criticalOffline := criticalOffline
       lastCheck := now }, none)

/-! ### Lemmas about the counting loop -/

theorem countStep_foldl (m : Int → Option DeviceStatus) :
    ∀ (devices : List Device) (acc : Nat × Nat × Bool),
      devices.foldl (countStep m) acc =
        (acc.1 + devices.countP (isOnlineIn m),
         acc.2.1 + devices.countP (fun d => !isOnlineIn m d),
         acc.2.2 || devices.any (fun d => !isOnlineIn m d && d.isCritical)) := by
  intro devices
  induction devices with
  | nil => intro acc; simp
  | cons d rest ih =>
    intro acc
    rw [List.foldl_cons, ih]
    rcases acc with ⟨a, b, c⟩
    by_cases h : isOnlineIn m d = true
    · simp [countStep, h, List.countP_cons, List.any_cons, Nat.add_comm,
        Nat.add_assoc, Nat.add_left_comm]
    · rw [Bool.not_eq_true] at h
      simp [countStep, h, List.countP_cons, List.any_cons, Bool.or_assoc,
        Nat.add_comm, Nat.add_assoc, Nat.add_left_comm]

theorem computePropertyStatus_onlineCount (propertyID : Int)
    (devices : List Device) (read : Int → StatusRead) (now : Int) :
    (computePropertyStatus propertyID devices read now).1.onlineCount =
      devices.countP (isOnlineIn (buildStatusMap devices read)) := by
  by_cases h : devices.length = 0
  · rw [List.length_eq_zero] at h
    subst h
    simp [computePropertyStatus]
  · simp only [computePropertyStatus, h, if_false, countStep_foldl,
      Nat.zero_add, Bool.false_or]

theorem computePropertyStatus_offlineCount (propertyID : Int)
    (devices : List Device) (read : Int → StatusRead) (now : Int) :
    (computePropertyStatus propertyID devices read now).1.offlineCount =
      devices.countP (fun d => !isOnlineIn (buildStatusMap devices read) d) := by
  by_cases h : devices.length = 0
  · rw [List.length_eq_zero] at h
    subst h
    simp [computePropertyStatus]
  · simp only [computePropertyStatus, h, if_false, countStep_foldl,
      Nat.zero_add, Bool.false_or]

theorem computePropertyStatus_totalCount (propertyID : Int)
    (devices : List Device) (read : Int → StatusRead) (now : Int) :
    (computePropertyStatus propertyID devices read now).1.totalCount =
      devices.length := by
  by_cases h : devices.length = 0
  · rw [List.length_eq_zero] at h
    subst h
    simp [computePropertyStatus]
  · simp only [computePropertyStatus, h, if_false]

theorem computePropertyStatus_criticalOffline (propertyID : Int)
    (devices : List Device) (read : Int → StatusRead) (now : Int) :
    (computePropertyStatus propertyID devices read now).1.criticalOffline =
      devices.any
        (fun d => !isOnlineIn (buildStatusMap devices read) d && d.isCritical) := by
  by_cases h : devices.length = 0
  · rw [List.length_eq_zero] at h
    subst h
    simp [computePropertyStatus]
  · simp only [computePropertyStatus, h, if_false, countStep_foldl,
      Nat.zero_add, Bool.false_or]

theorem countP_add_countP_not {α : Type} (p : α → Bool) (l : List α) :
    l.countP p + l.countP (fun a => !p a) = l.length := by
  induction l with
  | nil => simp
  | cons a t ih =>
    rcases Bool.eq_false_or_eq_true (p a) with h | h <;>
      simp [List.countP_cons, h] <;> omega

/-- Whether a read produced a stored status. -/
def StatusRead.isFound : StatusRead → Bool
  | .found _ => true
  | _ => false

/-! ### Lemmas about the status map built from reads -/

theorem buildStatusMap_aux (read : Int → StatusRead) :
    ∀ (devices : List Device) (m₀ : Int → Option DeviceStatus) (x : Int),
      devices.foldl (buildStep read) m₀ x =
        if devices.any (fun e => e.id == x && (read e.id).isFound) then
          (read x).toOption
        else m₀ x := by
  intro devices
  induction devices with
  | nil => intro m₀ x; simp
  | cons d rest ih =>
    intro m₀ x
    rw [List.foldl_cons, ih]
    by_cases hrest : rest.any (fun e => e.id == x && (read e.id).isFound) = true
    · simp [List.any_cons, hrest]
    · rw [Bool.not_eq_true] at hrest
      by_cases hid : d.id = x
      · subst hid
        cases hr : read d.id with
        | found s =>
          simp [List.any_cons, hrest, hr, buildStep, updMap,
            StatusRead.isFound, StatusRead.toOption]
        | notFound =>
          simp [List.any_cons, hrest, hr, buildStep, StatusRead.isFound]
        | readErr msg =>
          simp [List.any_cons, hrest, hr, buildStep, StatusRead.isFound]
      · cases hr : read d.id with
        | found s =>
          simp [List.any_cons, hrest, hr, buildStep, updMap,
            StatusRead.isFound, hid, Ne.symm hid]
        | notFound =>
          simp [List.any_cons, hrest, hr, buildStep, StatusRead.isFound, hid]
        | readErr msg =>
          simp [List.any_cons, hrest, hr, buildStep, StatusRead.isFound, hid]

/-- For a device in the aggregated list, the built map holds exactly what a
successful read produced, and nothing for a missing or erroring read. -/
theorem buildStatusMap_mem (devices : List Device) (read : Int → StatusRead)
    (d : Device) (hmem : d ∈ devices) :
    buildStatusMap devices read d.id = (read d.id).toOption := by
  unfold buildStatusMap
  rw [buildStatusMap_aux]
  by_cases hf : (read d.id).isFound = true
  · rw [if_pos (List.any_eq_true.mpr ⟨d, hmem, by simp [hf]⟩)]
  · rw [Bool.not_eq_true] at hf
    have hno : ¬ devices.any (fun e => e.id == d.id && (read e.id).isFound) = true := by
      rw [List.any_eq_true]
      rintro ⟨e, hme, hcond⟩
      rw [Bool.and_eq_true, beq_iff_eq] at hcond
      rw [hcond.1, hf] at hcond
      exact Bool.false_ne_true hcond.2
    rw [if_neg hno]
    cases hr : read d.id with
    | found s => rw [hr] at hf; simp [StatusRead.isFound] at hf
    | notFound => rfl
    | readErr msg => rfl

/-- The rollup verdict of `ComputePropertyStatus` on a nonempty device
list, expressed through the counting predicates. -/
theorem computePropertyStatus_status_eq (propertyID : Int)
    (devices : List Device) (read : Int → StatusRead) (now : Int)
    (hlen : devices.length ≠ 0) :
    (computePropertyStatus propertyID devices read now).1.status =
      (if devices.countP (fun d => !isOnlineIn (buildStatusMap devices read) d) =
            devices.length
          || devices.any
              (fun d => !isOnlineIn (buildStatusMap devices read) d && d.isCritical)
        then "red"
        else if devices.countP
            (fun d => !isOnlineIn (buildStatusMap devices read) d) > 0
          then "yellow"
          else "green") := by
  simp only [computePropertyStatus, hlen, if_false, countStep_foldl,
    Nat.zero_add, Bool.false_or]

/-! ### Spec-side aggregation predicates (the §3 invariant's language) -/

/-- All endpoints of the site are unreachable per the current status map. -/
def allOffline (devices : List Device) (m : Int → Option DeviceStatus) : Prop :=
  ∀ d ∈ devices, isOnlineIn m d = false

/-- Some endpoint of the site is unreachable per the current status map. -/
def someOffline (devices : List Device) (m : Int → Option DeviceStatus) : Prop :=
  ∃ d ∈ devices, isOnlineIn m d = false

/-- Some critical-flagged endpoint is unreachable. -/
def criticalOfflineExists (devices : List Device)
    (m : Int → Option DeviceStatus) : Prop :=
  ∃ d ∈ devices, d.isCritical = true ∧ isOnlineIn m d = false

end EtsNoc

/-- **C8**: the reachable count plus the unreachable count of a computed
`PropertyStatus` equals its total endpoint count, for every input device
list including the empty one. -/
theorem c8_counts_sum_to_total (propertyID : Int)
    (devices : List EtsNoc.Device) (read : Int → EtsNoc.StatusRead)
    (now : Int) :
    (EtsNoc.computePropertyStatus propertyID devices read now).1.onlineCount +
      (EtsNoc.computePropertyStatus propertyID devices read now).1.offlineCount =
      (EtsNoc.computePropertyStatus propertyID devices read now).1.totalCount := by
  rw [EtsNoc.computePropertyStatus_onlineCount,
    EtsNoc.computePropertyStatus_offlineCount,
    EtsNoc.computePropertyStatus_totalCount]
  exact EtsNoc.countP_add_countP_not _ devices

open EtsNoc in
/-- **C1**: for every site and device list, the rollup computed by
`ComputePropertyStatus` follows the tri-state policy in priority order:
red iff all endpoints are unreachable or a critical-flagged endpoint is
unreachable; else yellow iff some but not all are unreachable; else green,
with a zero-endpoint site resolving to green. -/
theorem c1_tristate_policy (propertyID : Int) (devices : List Device)
    (read : Int → StatusRead) (now : Int) :
    (devices = [] →
      (computePropertyStatus propertyID devices read now).1.status = "green") ∧
    (devices ≠ [] →
      (((computePropertyStatus propertyID devices read now).1.status = "red" ↔
          (allOffline devices (buildStatusMap devices read) ∨
            criticalOfflineExists devices (buildStatusMap devices read))) ∧
        ((computePropertyStatus propertyID devices read now).1.status = "yellow" ↔
          (someOffline devices (buildStatusMap devices read) ∧
            ¬ allOffline devices (buildStatusMap devices read) ∧
            ¬ criticalOfflineExists devices (buildStatusMap devices read))) ∧
        ((computePropertyStatus propertyID devices read now).1.status = "green" ↔
          ¬ someOffline devices (buildStatusMap devices read)))) := by
  constructor
  · intro h
    subst h
    simp [computePropertyStatus]
  · intro h
    have hlen : devices.length ≠ 0 := fun hl => h (List.length_eq_zero.mp hl)
    rw [computePropertyStatus_status_eq _ _ _ _ hlen]
    set m := buildStatusMap devices read with hm
    set off := devices.countP (fun d => !isOnlineIn m d) with hoffdef
    set crit := devices.any (fun d => !isOnlineIn m d && d.isCritical) with hcritdef
    have hall : off = devices.length ↔ allOffline devices m := by
      rw [hoffdef, List.countP_eq_length]
      constructor
      · intro hh d hd
        have := hh d hd
        simpa using this
      · intro hh d hd
        simp [hh d hd]
    have hsome : 0 < off ↔ someOffline devices m := by
      rw [hoffdef, List.countP_pos_iff]
      constructor
      · rintro ⟨d, hd, hp⟩
        exact ⟨d, hd, by simpa using hp⟩
      · rintro ⟨d, hd, hp⟩
        exact ⟨d, hd, by simp [hp]⟩
    have hcrit : crit = true ↔ criticalOfflineExists devices m := by
      rw [hcritdef, List.any_eq_true]
      constructor
      · rintro ⟨d, hd, hp⟩
        rw [Bool.and_eq_true] at hp
        exact ⟨d, hd, hp.2, by simpa using hp.1⟩
      · rintro ⟨d, hd, hc, hoffd⟩
        exact ⟨d, hd, by simp [hc, hoffd]⟩
    have hzero : off = 0 ↔ ¬ someOffline devices m := by
      rw [hoffdef, List.countP_eq_zero]
      constructor
      · rintro hh ⟨d, hd, hp⟩
        exact hh d hd (by simp [hp])
      · intro hh d hd hb
        exact hh ⟨d, hd, by simpa using hb⟩
    by_cases hc : (decide (off = devices.length) || crit) = true
    · rw [if_pos hc]
      simp only [Bool.or_eq_true, decide_eq_true_eq] at hc
      refine ⟨?_, ?_, ?_⟩
      · constructor
        · intro _
          rcases hc with h1 | h1
          · exact Or.inl (hall.mp h1)
          · exact Or.inr (hcrit.mp h1)
        · intro _
          rfl
      · constructor
        · intro habs
          exact absurd habs (by decide)
        · rintro ⟨_, hna, hnc⟩
          exfalso
          rcases hc with h1 | h1
          · exact hna (hall.mp h1)
          · exact hnc (hcrit.mp h1)
      · constructor
        · intro habs
          exact absurd habs (by decide)
        · intro hns
          exfalso
          rcases hc with h1 | h1
          · obtain ⟨d, hd⟩ := List.exists_mem_of_ne_nil devices h
            exact hns ⟨d, hd, (hall.mp h1) d hd⟩
          · obtain ⟨d, hd, _, hoffd⟩ := hcrit.mp h1
            exact hns ⟨d, hd, hoffd⟩
    · rw [if_neg hc]
      simp only [Bool.or_eq_true, decide_eq_true_eq, not_or] at hc
      by_cases hyel : off > 0
      · rw [if_pos hyel]
        refine ⟨?_, ?_, ?_⟩
        · constructor
          · intro habs
            exact absurd habs (by decide)
          · rintro (h1 | h1)
            · exact absurd (hall.mpr h1) hc.1
            · exact absurd (hcrit.mpr h1) hc.2
        · constructor
          · intro _
            exact ⟨hsome.mp hyel, fun ha => hc.1 (hall.mpr ha),
              fun hcx => hc.2 (hcrit.mpr hcx)⟩
          · intro _
            rfl
        · constructor
          · intro habs
            exact absurd habs (by decide)
          · intro hns
            exact absurd (hsome.mp hyel) hns
      · rw [if_neg hyel]
        have hoff0 : off = 0 := Nat.eq_zero_of_not_pos hyel
        refine ⟨?_, ?_, ?_⟩
        · constructor
          · intro habs
            exact absurd habs (by decide)
          · rintro (h1 | h1)
            · exact absurd (hall.mpr h1) hc.1
            · exact absurd (hcrit.mpr h1) hc.2
        · constructor
          · intro habs
            exact absurd habs (by decide)
          · rintro ⟨hs, _, _⟩
            exact absurd (hsome.mpr hs) hyel
        · constructor
          · intro _
            exact hzero.mp hoff0
          · intro _
            rfl

/-- A concrete non-critical device used by witnesses. -/
def EtsNoc.witnessDevice : EtsNoc.Device :=
  { id := 1, propertyID := 7, hostname := "gw.example", isCritical := false,
    retries := 3, timeout := 10000, active := true }

/-- A concrete critical device used by witnesses. -/
def EtsNoc.witnessCritDevice : EtsNoc.Device :=
  { id := 2, propertyID := 7, hostname := "fw.example", isCritical := true,
    retries := 3, timeout := 10000, active := true }

/-- A read function with nothing on record for any device. -/
def EtsNoc.witnessReadNone : Int → EtsNoc.StatusRead :=
  fun _ => EtsNoc.StatusRead.notFound

open EtsNoc in
/-- Witness for C1: a one-device site whose only endpoint has no status on
record rolls up red (all endpoints unreachable). -/
theorem c1_tristate_policy_witness :
    (computePropertyStatus 7 [witnessDevice] witnessReadNone 0).1.status = "red" :=
  ((c1_tristate_policy 7 [witnessDevice] witnessReadNone 0).2
      (by simp)).1.mpr
    (Or.inl (fun d hd => by
      rw [List.mem_singleton] at hd
      subst hd
      rfl))

open EtsNoc in
/-- **C2**: an endpoint of the site with no current status on record (the
read comes back `redis.Nil`: never probed or expired) is classified
unreachable by `ComputePropertyStatus` — it is absent from the built status
map, the offline count is positive, and if it is critical-flagged the
rollup's critical-offline flag is set. -/
theorem c2_missing_status_counts_offline (propertyID : Int)
    (devices : List Device) (read : Int → StatusRead) (now : Int)
    (d : Device) (hmem : d ∈ devices)
    (hread : read d.id = StatusRead.notFound) :
    buildStatusMap devices read d.id = none ∧
    isOnlineIn (buildStatusMap devices read) d = false ∧
    0 < (computePropertyStatus propertyID devices read now).1.offlineCount ∧
    (d.isCritical = true →
      (computePropertyStatus propertyID devices read now).1.criticalOffline = true) := by
  have hmap : buildStatusMap devices read d.id = none := by
    rw [buildStatusMap_mem devices read d hmem, hread]
    rfl
  have honline : isOnlineIn (buildStatusMap devices read) d = false := by
    rw [isOnlineIn, hmap]
  refine ⟨hmap, honline, ?_, ?_⟩
  · rw [computePropertyStatus_offlineCount, List.countP_pos_iff]
    exact ⟨d, hmem, by simp [honline]⟩
  · intro hcritd
    rw [computePropertyStatus_criticalOffline, List.any_eq_true]
    exact ⟨d, hmem, by simp [honline, hcritd]⟩

open EtsNoc in
/-- Witness for C2: a site whose critical device has no status on record
gets a positive offline count and the critical-offline flag. -/
theorem c2_missing_status_counts_offline_witness :
    0 < (computePropertyStatus 7 [witnessCritDevice] witnessReadNone 0).1.offlineCount ∧
    (computePropertyStatus 7 [witnessCritDevice] witnessReadNone 0).1.criticalOffline = true :=
  ⟨(c2_missing_status_counts_offline 7 [witnessCritDevice] witnessReadNone 0
      witnessCritDevice (by simp) rfl).2.2.1,
   (c2_missing_status_counts_offline 7 [witnessCritDevice] witnessReadNone 0
      witnessCritDevice (by simp) rfl).2.2.2 rfl⟩

open EtsNoc in
/-- **C10**: `ComputePropertyStatus` cannot fail — its error component is
`nil` on every input — and a device whose status read errors out is treated
exactly like a device with no status on record: collapsing every read error
to a missing entry changes nothing in the result. -/
theorem c10_read_errors_silent (propertyID : Int) (devices : List Device)
    (read : Int → StatusRead) (now : Int) :
    computePropertyStatus propertyID devices read now =
      computePropertyStatus propertyID devices
        (fun id => (read id).errToNotFound) now ∧
    (computePropertyStatus propertyID devices read now).2 = none := by
  have hb : buildStatusMap devices (fun id => (read id).errToNotFound) =
      buildStatusMap devices read := by
    unfold buildStatusMap
    congr 1
    funext m d
    cases hr : read d.id with
    | found s => simp [buildStep, StatusRead.errToNotFound, hr]
    | notFound => simp [buildStep, StatusRead.errToNotFound, hr]
    | readErr msg => simp [buildStep, StatusRead.errToNotFound, hr]
  constructor
  · simp only [computePropertyStatus, hb]
  · simp only [computePropertyStatus]
    by_cases h : devices.length = 0 <;> simp [h]

namespace EtsNoc

/-- One iteration of the grouping loop in `checkDevices` (lines 77–80):
append the device to its property's bucket. -/
def groupStep (m : Int → List Device) (d : Device) : Int → List Device :=
  fun p => if p = d.propertyID then m p ++ [d] else m p

/-- The `devicesByProperty` map built by `checkDevices`. -/
def groupByProperty (devices : List Device) : Int → List Device :=
  devices.foldl groupStep (fun _ => [])

theorem groupByProperty_aux :
    ∀ (devices : List Device) (m₀ : Int → List Device) (p : Int),
      devices.foldl groupStep m₀ p =
        m₀ p ++ devices.filter (fun d => d.propertyID == p) := by
  intro devices
  induction devices with
  | nil => intro m₀ p; simp
  | cons d rest ih =>
    intro m₀ p
    rw [List.foldl_cons, ih]
    by_cases hp : d.propertyID = p
    · rw [List.filter_cons_of_pos (by simp [hp])]
      simp [groupStep, hp, List.append_assoc]
    · rw [List.filter_cons_of_neg (by simp [hp])]
      have hp' : ¬ p = d.propertyID := fun hh => hp hh.symm
      simp [groupStep, hp']

/-- The grouping loop of `checkDevices` buckets exactly the devices of each
property, in encounter order. -/
theorem groupByProperty_eq_filter (devices : List Device) (p : Int) :
    groupByProperty devices p = devices.filter (fun d => d.propertyID == p) := by
  rw [groupByProperty, groupByProperty_aux]
  rfl

theorem perm_any {α : Type} (p : α → Bool) {l₁ l₂ : List α}
    (h : l₁.Perm l₂) : l₁.any p = l₂.any p := by
  rw [Bool.eq_iff_iff, List.any_eq_true, List.any_eq_true]
  constructor
  · rintro ⟨a, ha, hp⟩
    exact ⟨a, h.mem_iff.mp ha, hp⟩
  · rintro ⟨a, ha, hp⟩
    exact ⟨a, h.mem_iff.mpr ha, hp⟩

/-- The status map built by `ComputePropertyStatus` is insensitive to the
order of the device list (reads are keyed by device id only). -/
theorem buildStatusMap_perm (read : Int → StatusRead) {l₁ l₂ : List Device}
    (h : l₁.Perm l₂) : buildStatusMap l₁ read = buildStatusMap l₂ read := by
  funext x
  rw [buildStatusMap, buildStatusMap, buildStatusMap_aux, buildStatusMap_aux,
    perm_any _ h]

/-- The function `ComputePropertyStatus` is a function of the device *set*: permuting
the device list changes nothing in the result. -/
theorem computePropertyStatus_perm (propertyID : Int) {l₁ l₂ : List Device}
    (read : Int → StatusRead) (now : Int) (hperm : l₁.Perm l₂) :
    computePropertyStatus propertyID l₁ read now =
      computePropertyStatus propertyID l₂ read now := by
  by_cases h : l₁.length = 0
  · have h2 : l₂.length = 0 := hperm.length_eq ▸ h
    simp [computePropertyStatus, h, h2]
  · have h2 : ¬ l₂.length = 0 := fun hl => h (hperm.length_eq.trans hl)
    simp only [computePropertyStatus, h, h2, if_false, countStep_foldl,
      Nat.zero_add, Bool.false_or]
    rw [buildStatusMap_perm read hperm, hperm.countP_eq, hperm.countP_eq,
      hperm.length_eq, perm_any _ hperm]

/-- The compute path of the API handler `handleGetPropertyStatus`
(handlers.go lines 186–191): build the status from the property's device
list on demand. -/
def handleGetPropertyStatus_compute (id : Int) (devices : List Device)
    (read : Int → StatusRead) (now : Int) : PropertyStatus :=
  (computePropertyStatus id devices read now).1

/-- The per-property aggregation of the scheduled path `checkDevices`
(pinger.go lines 109–121): group all checked devices by property and
compute that property's status. -/
def checkDevices_aggregate (devices : List Device) (read : Int → StatusRead)
    (now : Int) (propertyID : Int) : PropertyStatus :=
  (computePropertyStatus propertyID (groupByProperty devices propertyID)
    read now).1

end EtsNoc

open EtsNoc in
/-- **C5**: the on-demand API path and the scheduled per-tick path use the
same aggregation rule: whenever the handler's device list holds the same
endpoint set (up to order) as the scheduled path's bucket for the property,
the two computed `PropertyStatus` records agree bit-for-bit; moreover the
scheduled bucket is exactly the property's device sublist. -/
theorem c5_on_demand_matches_scheduled (devices hdevices : List Device)
    (read : Int → StatusRead) (now : Int) (propertyID : Int)
    (hsame : hdevices.Perm (groupByProperty devices propertyID)) :
    handleGetPropertyStatus_compute propertyID hdevices read now =
      checkDevices_aggregate devices read now propertyID ∧
    groupByProperty devices propertyID =
      devices.filter (fun d => d.propertyID == propertyID) := by
  constructor
  · rw [handleGetPropertyStatus_compute, checkDevices_aggregate,
      computePropertyStatus_perm propertyID read now hsame]
  · exact groupByProperty_eq_filter devices propertyID

open EtsNoc in
/-- Witness for C5: two devices of the same property, handed to the handler
in the opposite order from the scheduled grouping, still yield the same
rollup record. -/
theorem c5_on_demand_matches_scheduled_witness :
    handleGetPropertyStatus_compute 7 [witnessCritDevice, witnessDevice]
        witnessReadNone 0 =
      checkDevices_aggregate [witnessDevice, witnessCritDevice]
        witnessReadNone 0 7 :=
  (c5_on_demand_matches_scheduled [witnessDevice, witnessCritDevice]
    [witnessCritDevice, witnessDevice] witnessReadNone 0 7 (by decide)).1

namespace EtsNoc

/-- The notification-cooldown records kept in the per-property Redis hash
`property:last_notification:<id>`, field = event type, value = Unix seconds
of the last notification of that type. -/
structure NotifState where
  lastNotification : Int → String → Option Int

/-- A store holding no notification records. -/
def emptyNotifState : NotifState := ⟨fun _ _ => none⟩

/-- Method `RedisStore.SetLastNotification`: HSET of `time.Now().Unix()` under the
event-type field. `now` is the write instant in Unix seconds. -/
def setLastNotification (st : NotifState) (propertyID : Int)
    (eventType : String) (now : Int) : NotifState :=
  ⟨fun p e =>
    if p = propertyID ∧ e = eventType then some now
    else st.lastNotification p e⟩

/-- Method `RedisStore.GetLastNotification`: `none` models the zero `time.Time`
returned on `redis.Nil`. -/
def getLastNotification (st : NotifState) (propertyID : Int)
    (eventType : String) : Option Int :=
  st.lastNotification propertyID eventType

/-- Method `RedisStore.ShouldNotify`: true when no record exists, else true iff
the elapsed seconds since the record reach the cooldown. The Go code
compares `elapsed.Seconds() >= float64(cooldownSeconds)`; with stored
timestamps and `now` at whole-second granularity this is exactly
`now - ts ≥ cooldownSeconds`. -/
def shouldNotify (st : NotifState) (propertyID : Int) (eventType : String)
    (cooldownSeconds : Int) (now : Int) : Bool :=
  match getLastNotification st propertyID eventType with
  | none => true
  | some ts => decide (now - ts ≥ cooldownSeconds)

end EtsNoc

open EtsNoc in
/-- **C3**: the cooldown gate returns true when no record exists for the
(site, event type) pair; otherwise true iff the elapsed time since the last
recorded notification reaches the cooldown — in particular false right
after a `SetLastNotification` with a non-expired cooldown, and true again
once the cooldown has elapsed. -/
theorem c3_cooldown_gate (st : NotifState) (propertyID : Int)
    (eventType : String) (cooldown : Int) (now t : Int) :
    (getLastNotification st propertyID eventType = none →
      shouldNotify st propertyID eventType cooldown now = true) ∧
    (∀ ts, getLastNotification st propertyID eventType = some ts →
      (shouldNotify st propertyID eventType cooldown now = true ↔
        now - ts ≥ cooldown)) ∧
    (now - t < cooldown →
      shouldNotify (setLastNotification st propertyID eventType t)
        propertyID eventType cooldown now = false) ∧
    (now - t ≥ cooldown →
      shouldNotify (setLastNotification st propertyID eventType t)
        propertyID eventType cooldown now = true) := by
  have hget : getLastNotification
      (setLastNotification st propertyID eventType t) propertyID eventType =
      some t := by
    simp [getLastNotification, setLastNotification]
  refine ⟨?_, ?_, ?_, ?_⟩
  · intro h
    rw [shouldNotify, h]
  · intro ts h
    rw [shouldNotify, h]
    simp
  · intro h
    rw [shouldNotify, hget]
    simpa using h
  · intro h
    rw [shouldNotify, hget]
    simpa using h

open EtsNoc in
/-- Witness for C3: fresh pair allows notifying; right after recording at
time 0 with a 300 s cooldown the gate blocks at time 100 and reopens at
time 300. -/
theorem c3_cooldown_gate_witness :
    shouldNotify emptyNotifState 7 "property_down" 300 100 = true ∧
    shouldNotify (setLastNotification emptyNotifState 7 "property_down" 0)
      7 "property_down" 300 100 = false ∧
    shouldNotify (setLastNotification emptyNotifState 7 "property_down" 0)
      7 "property_down" 300 300 = true :=
  ⟨(c3_cooldown_gate emptyNotifState 7 "property_down" 300 100 0).1 rfl,
   (c3_cooldown_gate emptyNotifState 7 "property_down" 300 100 0).2.2.1
     (by decide),
   (c3_cooldown_gate emptyNotifState 7 "property_down" 300 300 0).2.2.2
     (by decide)⟩

namespace EtsNoc

/-- Go struct `models.DeviceHistory`: one history point in a device's Redis
sorted set; the member is the serialized point and the score is its
timestamp (Unix seconds). -/
structure DeviceHistory where
  timestamp : Int
  status : String
  responseTime : Int
  deriving DecidableEq

/-- Redis `ZREMRANGEBYSCORE key lo hi`: drop the members whose score lies in the
inclusive range `[lo, hi]`. -/
def zRemRangeByScore (lo hi : Int) (hist : List DeviceHistory) :
    List DeviceHistory :=
  hist.filter (fun p => !(decide (lo ≤ p.timestamp) && decide (p.timestamp ≤ hi)))

/-- Method `RedisStore.AddDeviceHistory` for one device's history: ZADD the new
point at score `now`, then `ZREMRANGEBYSCORE key 0 ninetyDaysAgo` with the
hardcoded `time.Now().AddDate(0, 0, -90)` cutoff (90 days = 7776000 s on a
UTC clock). -/
def addDeviceHistory (now : Int) (status : String) (responseTime : Int)
    (hist : List DeviceHistory) : List DeviceHistory :=
  let point : DeviceHistory :=
    { timestamp := now, status := status, responseTime := responseTime }
  zRemRangeByScore 0 (now - 90 * 86400) (hist ++ [point])

/-- Method `RedisStore.CleanupOldHistory` on one device's history:
`ZREMRANGEBYSCORE key 0 cutoff` with `cutoff = now - retentionDays` days. -/
def cleanupOldHistory (now : Int) (retentionDays : Int)
    (hist : List DeviceHistory) : List DeviceHistory :=
  zRemRangeByScore 0 (now - retentionDays * 86400) hist

end EtsNoc

open EtsNoc in
/-- Counterexample for C4: with `history_retention_days` configured to 30,
the append-time prune of `AddDeviceHistory` keeps a point that is 40 days
old, because its cutoff is hardcoded to 90 days — so not every remaining
point is within the configured retention window. -/
theorem c4_counterexample :
    ({ timestamp := 6544000, status := "offline", responseTime := 0 } :
        DeviceHistory) ∈
      addDeviceHistory 10000000 "online" 5
        [{ timestamp := 6544000, status := "offline", responseTime := 0 }] ∧
    (10000000 : Int) - 6544000 > 30 * 86400 := by
  constructor
  · decide
  · decide

open EtsNoc in
/-- **C4 (amended)**: `CleanupOldHistory` retains exactly the points
strictly younger than the `retentionDays` cutoff (the cutoff itself is
removed, scores below 0 are outside the removal range), while the
append-time prune in `AddDeviceHistory` retains exactly the appended point
plus the points strictly younger than its fixed 90-day cutoff, regardless
of the configured retention. -/
theorem c4_retention_pruning (now retentionDays : Int) (status : String)
    (rt : Int) (hist : List DeviceHistory) (p : DeviceHistory) :
    (p ∈ cleanupOldHistory now retentionDays hist ↔
      p ∈ hist ∧ (p.timestamp < 0 ∨ now - retentionDays * 86400 < p.timestamp)) ∧
    (p ∈ addDeviceHistory now status rt hist ↔
      (p ∈ hist ∨
        p = { timestamp := now, status := status, responseTime := rt }) ∧
      (p.timestamp < 0 ∨ now - 90 * 86400 < p.timestamp)) := by
  have harith : ∀ (c : Int),
      (!(decide (0 ≤ p.timestamp) && decide (p.timestamp ≤ c))) = true ↔
        (p.timestamp < 0 ∨ c < p.timestamp) := by
    intro c
    simp only [Bool.not_eq_true', Bool.and_eq_false_iff, decide_eq_false_iff_not]
    omega
  constructor
  · rw [cleanupOldHistory, zRemRangeByScore, List.mem_filter]
    exact and_congr_right fun _ => harith _
  · rw [addDeviceHistory, zRemRangeByScore, List.mem_filter, List.mem_append,
      List.mem_singleton]
    exact and_congr_right fun _ => harith _

namespace EtsNoc

/-- The Redis state touched by the device-status operations: the
`device:status:<id>` keys (value plus the absolute expiry deadline set by
the 10-minute TTL) and the `all_device_status` hash (plain fields, no
per-field TTL). -/
structure RedisState where
  statusKey : Int → Option (DeviceStatus × Int)
  allHash : Int → Option DeviceStatus

/-- A Redis with no device statuses stored. -/
def emptyRedisState : RedisState := ⟨fun _ => none, fun _ => none⟩

/-- Method `RedisStore.SetDeviceStatus`: pipelined SET of the point key with a
10-minute (600 s) TTL plus HSET of the same value into the
`all_device_status` hash. -/
def setDeviceStatus (now : Int) (status : DeviceStatus) (st : RedisState) :
    RedisState :=
  { statusKey := fun id =>
      if id = status.deviceID then some (status, now + 600)
      else st.statusKey id
    allHash := fun id =>
      if id = status.deviceID then some status
      else st.allHash id }

/-- Method `RedisStore.GetDeviceStatus`: GET of the point key — absent once the
TTL deadline has passed (`redis.Nil` becomes the not-found result). -/
def getDeviceStatus (now : Int) (deviceID : Int) (st : RedisState) :
    Option DeviceStatus :=
  match st.statusKey deviceID with
  | some (s, deadline) => if now < deadline then some s else none
  | none => none

/-- Method `RedisStore.GetAllDeviceStatuses`: HGETALL of the hash, as the lookup
function for one device id; hash fields carry no TTL, so no time is
involved. -/
def getAllDeviceStatuses (st : RedisState) : Int → Option DeviceStatus :=
  st.allHash

/-- A concrete stored status for the C6 scenario. -/
def witnessStatus : DeviceStatus :=
  { deviceID := 1, status := "online", responseTime := 12, lastCheck := 0,
    message := "OK" }

end EtsNoc

open EtsNoc in
/-- Counterexample for C6: a status written once at time 0 and never
refreshed reads as absent through the point lookup after the 600 s TTL,
but the bulk lookup still returns it — the hash entry never expires, so
the status does not eventually read as absent through every read path. -/
theorem c6_counterexample :
    getDeviceStatus 601 1 (setDeviceStatus 0 witnessStatus emptyRedisState) =
      none ∧
    getAllDeviceStatuses (setDeviceStatus 0 witnessStatus emptyRedisState) 1 =
      some witnessStatus := by
  constructor
  · rfl
  · rfl

open EtsNoc in
/-- **C6 (amended)**: `SetDeviceStatus` has overwrite semantics and
attaches the bounded 10-minute expiry to the point-lookup key only: a
status never refreshed reads as absent through `GetDeviceStatus` once the
TTL passes, while the `all_device_status` hash entry read by
`GetAllDeviceStatuses` persists until overwritten. -/
theorem c6_expiry_paths (st : RedisState) (now t : Int) (s : DeviceStatus) :
    (t ≥ now + 600 →
      getDeviceStatus t s.deviceID (setDeviceStatus now s st) = none) ∧
    (t < now + 600 →
      getDeviceStatus t s.deviceID (setDeviceStatus now s st) = some s) ∧
    getAllDeviceStatuses (setDeviceStatus now s st) s.deviceID = some s := by
  have hkey : (setDeviceStatus now s st).statusKey s.deviceID =
      some (s, now + 600) := by
    simp [setDeviceStatus]
  refine ⟨?_, ?_, by simp [getAllDeviceStatuses, setDeviceStatus]⟩
  · intro h
    unfold getDeviceStatus
    rw [hkey]
    show (if t < now + 600 then some s else none) = none
    rw [if_neg (by omega)]
  · intro h
    unfold getDeviceStatus
    rw [hkey]
    show (if t < now + 600 then some s else none) = some s
    rw [if_pos h]

open EtsNoc in
/-- Witness for C6 (amended): the concrete scenario at times 601 and 599
after a write at time 0. -/
theorem c6_expiry_paths_witness :
    getDeviceStatus 601 1 (setDeviceStatus 0 witnessStatus emptyRedisState) =
      none ∧
    getDeviceStatus 599 1 (setDeviceStatus 0 witnessStatus emptyRedisState) =
      some witnessStatus ∧
    getAllDeviceStatuses (setDeviceStatus 0 witnessStatus emptyRedisState) 1 =
      some witnessStatus :=
  ⟨(c6_expiry_paths emptyRedisState 0 601 witnessStatus).1 (by decide),
   (c6_expiry_paths emptyRedisState 0 599 witnessStatus).2.1 (by decide),
   (c6_expiry_paths emptyRedisState 0 599 witnessStatus).2.2⟩

namespace EtsNoc

/-- Outcome of one probe attempt sequence against a device, abstracting the
network interaction of `pro-bing`: pinger creation may fail (name
resolution), the run may fail, or the run completes with packet
statistics. -/
inductive ProbeOutcome where
  | createFailed (err : String)
  | runFailed (err : String)
  | completed (packetsSent : Nat) (packetsRecv : Nat) (avgRttMs : Int)
  deriving DecidableEq

/-- Method `Pinger.pingDevice`: total function from the probe outcome to a
`DeviceStatus`; every failure mode produces the offline verdict with a
diagnostic message, never an error. The pinger is configured with
`device.Retries` attempts and `device.Timeout` ms, which shape the outcome
but not this mapping. -/
def pingDevice (device : Device) (now : Int) (outcome : ProbeOutcome) :
    DeviceStatus :=
  match outcome with
  | .createFailed err =>
    { deviceID := device.id, status := "offline", responseTime := 0,
      lastCheck := now, message := "Failed to create pinger: " ++ err }
  | .runFailed err =>
    { deviceID := device.id, status := "offline", responseTime := 0,
      lastCheck := now, message := "Ping failed: " ++ err }
  | .completed sent recv avgRtt =>
    if recv > 0 then
      { deviceID := device.id, status := "online", responseTime := avgRtt,
        lastCheck := now, message := "OK" }
    else
      { deviceID := device.id, status := "offline", responseTime := 0,
        lastCheck := now,
        message := "No packets received (" ++ toString sent ++ " sent)" }

/-- The failure modes of a probe: creation failure, run failure, or a
completed run that received no packets. -/
def probeFailed : ProbeOutcome → Bool
  | .createFailed _ => true
  | .runFailed _ => true
  | .completed _ recv _ => recv == 0

theorem string_append_ne_empty (s t : String) (h : s.length ≠ 0) :
    s ++ t ≠ "" := by
  intro heq
  have hl := congrArg String.length heq
  rw [String.length_append] at hl
  simp at hl
  omega

end EtsNoc

open EtsNoc in
/-- **C7**: the probe executor never escalates a failure as an error — it
always returns a status verdict, and every failure mode (pinger creation
failure, run failure, or zero packets received) yields the offline verdict
with a nonempty diagnostic message. -/
theorem c7_probe_never_errors (device : Device) (now : Int)
    (o : ProbeOutcome) :
    ((pingDevice device now o).status = "online" ∨
      (pingDevice device now o).status = "offline") ∧
    (probeFailed o = true →
      (pingDevice device now o).status = "offline" ∧
      (pingDevice device now o).message ≠ "") := by
  cases o with
  | createFailed err =>
    exact ⟨Or.inr rfl, fun _ =>
      ⟨rfl, string_append_ne_empty _ _ (by decide)⟩⟩
  | runFailed err =>
    exact ⟨Or.inr rfl, fun _ =>
      ⟨rfl, string_append_ne_empty _ _ (by decide)⟩⟩
  | completed sent recv avgRtt =>
    by_cases hrecv : recv > 0
    · refine ⟨Or.inl (by simp [pingDevice, hrecv]), fun hfail => ?_⟩
      rw [probeFailed] at hfail
      simp only [beq_iff_eq] at hfail
      omega
    · refine ⟨Or.inr (by simp [pingDevice, hrecv]), fun _ => ?_⟩
      constructor
      · simp [pingDevice, hrecv]
      · simp only [pingDevice, if_neg hrecv]
        refine string_append_ne_empty _ _ ?_
        rw [String.length_append]
        have h21 : ("No packets received (" : String).length = 21 := by decide
        omega

open EtsNoc in
/-- Witness for C7: a completed probe with three packets sent and none
received is classified offline with a diagnostic message. -/
theorem c7_probe_never_errors_witness :
    (pingDevice witnessDevice 0 (ProbeOutcome.completed 3 0 0)).status =
      "offline" ∧
    (pingDevice witnessDevice 0 (ProbeOutcome.completed 3 0 0)).message ≠ "" :=
  (c7_probe_never_errors witnessDevice 0 (ProbeOutcome.completed 3 0 0)).2 rfl

namespace EtsNoc

/-- The lifecycle of one probe goroutine spawned by `checkDevices`: it
waits for a semaphore slot (`sem <- struct{}{}` on the buffered channel of
capacity `maxConcurrent`), runs the probe while holding the slot, and
releases the slot when done; the `ctx.Done()` select arm lets it finish
without ever acquiring. -/
inductive TaskPhase where
  | waiting
  | running
  | finished
  deriving DecidableEq

/-- Whether a task currently holds a semaphore slot (probe in flight). -/
def isRunning : TaskPhase → Bool
  | .running => true
  | _ => false

/-- Number of probes in flight: tasks holding a semaphore slot. -/
def inFlight (s : List TaskPhase) : Nat := s.countP isRunning

/-- Small-step semantics of one tick of `checkDevices` (lines 72–107): a
waiting task may start only when the buffered channel has a free slot
(fewer than `maxConcurrent` probes in flight — a send on a full channel
blocks); a running task may finish, releasing its slot; a waiting task may
be cancelled via `ctx.Done()` without acquiring. -/
inductive SchedStep (maxConcurrent : Nat) :
    List TaskPhase → List TaskPhase → Prop where
  | acquire (s : List TaskPhase) (i : Nat) (hi : i < s.length)
      (hw : s.get ⟨i, hi⟩ = .waiting) (hb : inFlight s < maxConcurrent) :
      SchedStep maxConcurrent s (s.set i .running)
  | release (s : List TaskPhase) (i : Nat) (hi : i < s.length)
      (hr : s.get ⟨i, hi⟩ = .running) :
      SchedStep maxConcurrent s (s.set i .finished)
  | cancel (s : List TaskPhase) (i : Nat) (hi : i < s.length)
      (hw : s.get ⟨i, hi⟩ = .waiting) :
      SchedStep maxConcurrent s (s.set i .finished)

/-- States reachable within one tick that fans out `n` probe tasks, all
initially waiting at the semaphore. -/
inductive SchedReachable (maxConcurrent n : Nat) : List TaskPhase → Prop where
  | init : SchedReachable maxConcurrent n (List.replicate n .waiting)
  | step {s s' : List TaskPhase} : SchedReachable maxConcurrent n s →
      SchedStep maxConcurrent s s' → SchedReachable maxConcurrent n s'

theorem countP_set_add {α : Type} (p : α → Bool) :
    ∀ (l : List α) (i : Nat) (hi : i < l.length) (v : α),
      (l.set i v).countP p + (if p (l.get ⟨i, hi⟩) then 1 else 0) =
        l.countP p + (if p v then 1 else 0) := by
  intro l
  induction l with
  | nil =>
    intro i hi
    exact absurd hi (Nat.not_lt_zero i)
  | cons a t ih =>
    intro i hi v
    cases i with
    | zero =>
      have hget : (a :: t).get ⟨0, hi⟩ = a := rfl
      rw [hget]
      simp only [List.set_cons_zero, List.countP_cons]
      omega
    | succ j =>
      have hj : j < t.length := by simpa using hi
      have hget : (a :: t).get ⟨j + 1, hi⟩ = t.get ⟨j, hj⟩ := rfl
      rw [hget]
      simp only [List.set_cons_succ, List.countP_cons]
      have := ih j hj v
      omega

end EtsNoc

open EtsNoc in
/-- **C9**: in every state reachable during a tick, the number of probes in
flight never exceeds the semaphore bound `maxConcurrent`, whatever the
number `n` of fanned-out probe tasks. -/
theorem c9_in_flight_bounded (maxConcurrent n : Nat) (s : List TaskPhase)
    (h : SchedReachable maxConcurrent n s) : inFlight s ≤ maxConcurrent := by
  induction h with
  | init =>
    have hz : inFlight (List.replicate n TaskPhase.waiting) = 0 := by
      rw [inFlight, List.countP_eq_zero]
      intro a ha
      rw [List.eq_of_mem_replicate ha]
      simp [isRunning]
    omega
  | @step s s' hreach hstep ih =>
    cases hstep with
    | acquire i hi hw hb =>
      have hc := countP_set_add isRunning s i hi TaskPhase.running
      rw [hw] at hc
      simp [isRunning] at hc
      simp only [inFlight] at ih hb ⊢
      omega
    | release i hi hr =>
      have hc := countP_set_add isRunning s i hi TaskPhase.finished
      rw [hr] at hc
      simp [isRunning] at hc
      simp only [inFlight] at ih ⊢
      omega
    | cancel i hi hw =>
      have hc := countP_set_add isRunning s i hi TaskPhase.finished
      rw [hw] at hc
      simp [isRunning] at hc
      simp only [inFlight] at ih ⊢
      omega

open EtsNoc in
/-- Witness for C9: with a bound of 2 and 3 fanned-out tasks, the state
after one task acquires the semaphore is reachable and within the bound. -/
theorem c9_in_flight_bounded_witness :
    inFlight ((List.replicate 3 TaskPhase.waiting).set 0 TaskPhase.running) ≤ 2 :=
  c9_in_flight_bounded 2 3 _
    (SchedReachable.step SchedReachable.init
      (SchedStep.acquire (List.replicate 3 TaskPhase.waiting) 0 (by decide)
        rfl (by decide)))
